import Mathlib

/-!
Verification development for the helix runner's model-instance lifecycle
subsystem (`api/pkg/runner/model_instance.go` and the model registry in
`api/pkg/model`).

The Go code is shallowly embedded: the mutable fields of `ModelInstance`
become an explicit `InstanceState` record, and each method becomes a pure
function from a pre-state (plus the outcomes of external collaborators such
as the file handler, passed as parameters) to a post-state together with
the task responses it emits.  Machine integers (`uint64` memory sizes) are
modelled as `Nat`; Go `error` values are modelled as `Except String`.
-/

/-- Go `types.SessionMode` is a string type (`inference` / `finetune`). -/
abbrev SessionMode := String

/-- Go `types.SessionType` is a string type (`text` / `image`). -/
abbrev SessionType := String

/-- Go `types.ModelName` is a string type. -/
abbrev ModelName := String

/-- The fields of Go `types.Session` that the model-instance operations read.
The remaining fields (interactions, metadata, timestamps, ...) are carried
opaquely by the Go code and never inspected by the operations verified
here. -/
structure Session where
  ID : String
  Owner : String
  Mode : SessionMode
  Typ : SessionType
  ModelName : ModelName
  LoraDir : String
deriving DecidableEq, Repr

/-- Go `types.WorkerTaskResponseType`: the closed set of task-response kinds
(`stream`, `progress`, `result`). -/
inductive WorkerTaskResponseType where
  | stream
  | progress
  | result
deriving DecidableEq, Repr

/-- Go `types.RunnerTaskResponse`.  Field defaults are the Go zero values,
so a composite literal that omits a field (as `errorSession` omits `Done`
and `Owner`) leaves the zero value, exactly as in Go. -/
structure RunnerTaskResponse where
  typ : WorkerTaskResponseType
  SessionID : String
  InteractionID : String := ""
  Owner : String := ""
  Message : String := ""
  Progress : Int := 0
  Status : String := ""
  Files : List String := []
  LoraDir : String := ""
  Error : String := ""
  Done : Bool := false
deriving DecidableEq, Repr

/-- Go `types.RunnerTask`. -/
structure RunnerTask where
  SessionID : String := ""
  Prompt : String := ""
  LoraDir : String := ""
  DatasetDir : String := ""
deriving DecidableEq, Repr

/-- Go `types.SessionFilter` (the fields `NewModelInstance` populates). -/
structure SessionFilter where
  Mode : SessionMode := ""
  Typ : SessionType := ""
  ModelName : ModelName := ""
  LoraDir : String := ""
  Memory : Nat := 0
deriving DecidableEq, Repr

/-- Modelled from the spec: `types.LORA_DIR_NONE`, the sentinel meaning
"this session has explicitly no fine-tune artifact", distinct from the
empty string which means "unspecified".  The constant's declaration is not
part of the source extract; only its distinctness from `""` matters to the
theorems below. -/
def LORA_DIR_NONE : String := "none"

/-- The mutable state of a Go `runner.ModelInstance`: the three session
slots, the activity timestamp, and the (construction-time, thereafter
read-only) session filter.  The remaining Go fields (id, URLs, command,
channels, handlers) are either immutable after `NewModelInstance` or are
handles to external collaborators modelled as parameters. -/
structure InstanceState where
  currentSession : Option Session := none
  nextSession : Option Session := none
  queuedSession : Option Session := none
  lastActivityTimestamp : Int := 0
  filter : SessionFilter := {}
deriving DecidableEq, Repr

/-- The state of a freshly constructed instance: all slots empty. -/
def initialInstanceState (filter : SessionFilter) : InstanceState :=
  { filter := filter }

/-- Method `ModelInstance.errorSession`: builds the single response it hands to
`responseHandler`.  The Go composite literal sets only `Type`, `SessionID`
and `Error`; every other field, `Done` and `Owner` included, keeps its zero
value. -/
def errorSession (session : Session) (errMsg : String) : RunnerTaskResponse :=
  { typ := .result
    SessionID := session.ID
    Error := errMsg }

/-- First half of `ModelInstance.queueSession`: store the session as
`queuedSession` and clear `nextSession`, before the download starts. -/
def queueSessionStart (st : InstanceState) (session : Session) : InstanceState :=
  { st with queuedSession := some session, nextSession := none }

/-- Second half of `ModelInstance.queueSession`, after
`fileHandler.downloadSession` returns.  On error both slots are cleared and
`errorSession` emits one response; on success the prepared session is
promoted to `nextSession` and `queuedSession` is cleared.  Returns the
post-state and the list of responses handed to `responseHandler`. -/
def queueSessionFinish (st : InstanceState) (session : Session)
    (download : Except String Session) : InstanceState × List RunnerTaskResponse :=
  match download with
  | .error e =>
      ({ st with queuedSession := none, nextSession := none },
       [errorSession session e])
  | .ok prepared =>
      ({ st with queuedSession := none, nextSession := some prepared }, [])

/-- Method `ModelInstance.queueSession` end to end: the download outcome is the
parameter `download` (the file handler is an external collaborator). -/
def queueSession (st : InstanceState) (session : Session)
    (download : Except String Session) : InstanceState × List RunnerTaskResponse :=
  queueSessionFinish (queueSessionStart st session) session download

/-- Method `ModelInstance.assignSessionTask`: refreshes the activity timestamp and
sets `currentSession` (both happen before `model.GetTask` is consulted, so
they happen on the error path too), then stamps the task with the session
ID.  `getTask` stands for the per-model `model.GetTask`. -/
def assignSessionTask (st : InstanceState) (now : Int) (session : Session)
    (getTask : Session → Except String RunnerTask) :
    InstanceState × Except String RunnerTask :=
  let st1 := { st with lastActivityTimestamp := now, currentSession := some session }
  match getTask session with
  | .error e => (st1, .error e)
  | .ok task => (st1, .ok { task with SessionID := session.ID })

/-- What `ModelInstance.taskResponseHandler` did with one response:
dropped it (no current session / ID mismatch / upload failure, each only
logged in Go), or invoked `responseHandler` with the given response. -/
inductive HandlerOutcome where
  | droppedNoSession
  | droppedMismatch
  | droppedUploadFailed
  | forwarded (r : RunnerTaskResponse)
deriving DecidableEq, Repr

/-- Whether the outcome is one of the three drop outcomes. -/
def HandlerOutcome.isDropped : HandlerOutcome → Bool
  | .forwarded _ => false
  | _ => true

/-- Method `ModelInstance.taskResponseHandler`.  Here `upload` stands for
`fileHandler.uploadWorkerResponse` (external collaborator); it may rewrite
the response it is given.  Mirrors the Go control flow: drop if there is no
current session or the session ID mismatches; otherwise tag the owner,
refresh the activity timestamp, and for `result` responses upload first
(clearing `currentSession` whether or not the upload succeeds, forwarding
only on success). -/
def taskResponseHandler (st : InstanceState) (now : Int)
    (upload : RunnerTaskResponse → Except String RunnerTaskResponse)
    (taskResponse : RunnerTaskResponse) : InstanceState × HandlerOutcome :=
  match st.currentSession with
  | none => (st, .droppedNoSession)
  | some current =>
      if current.ID ≠ taskResponse.SessionID then
        (st, .droppedMismatch)
      else
        let r1 := { taskResponse with Owner := current.Owner }
        let st1 := { st with lastActivityTimestamp := now }
        if r1.typ = .result then
          match upload r1 with
          | .error _ => ({ st1 with currentSession := none }, .droppedUploadFailed)
          | .ok r2 => ({ st1 with currentSession := none }, .forwarded r2)
        else
          (st1, .forwarded r1)

/-- The tail of `ModelInstance.startProcess`: the goroutine around
`cmd.Wait()`.  `waitErr` is `cmd.Wait()`'s error (`none` for a clean exit);
on a non-nil error with a current session the instance calls
`errorSession` with exactly that error.  The second component records that
`finishChan` is always signalled. -/
def processExit (currentSession : Option Session) (waitErr : Option String) :
    List RunnerTaskResponse × Bool :=
  match waitErr with
  | none => ([], true)
  | some e =>
      match currentSession with
      | none => ([], true)
      | some s => ([errorSession s e], true)

/-- Modelled from the spec: `system.NewLimitedBuffer(1024*10)` retains the
last 10 KiB written to it (the buffer's implementation is not part of the
source extract).  `limitedBuffer limit s` is the suffix of `s` kept by a
bounded buffer of capacity `limit`. -/
def limitedBuffer (limit : Nat) (s : String) : String :=
  ⟨s.data.drop (s.data.length - limit)⟩

/-- The filter `NewModelInstance` stores on the instance: model name, mode
and type are copied from the initial session; an empty `LoraDir` is hoisted
to `LORA_DIR_NONE`, a non-empty one is kept as is. -/
def newModelInstanceFilter (initialSession : Session) : SessionFilter :=
  let useLoraDir := if initialSession.LoraDir = "" then LORA_DIR_NONE
                    else initialSession.LoraDir
  { ModelName := initialSession.ModelName
    Mode := initialSession.Mode
    LoraDir := useLoraDir
    Typ := initialSession.Typ }

/-- The per-mode memory requirements one entry of the `model.GetModels`
registry reports (`GetMemoryRequirements` for `finetune` respectively
`inference`).  The concrete per-model figures live in the individual model
files; the registry loop below is verified for every assignment. -/
structure ModelMemory where
  finetune : Nat
  inference : Nat
deriving DecidableEq, Repr

/-- One comparison step of `model.GetLowestMemoryRequirement`'s loop body:
adopt `v` when it is positive and either no candidate has been adopted yet
(`lowest = 0`) or `v` is strictly smaller. -/
def updateLowest (lowest v : Nat) : Nat :=
  if 0 < v ∧ (lowest = 0 ∨ v < lowest) then v else lowest

/-- Function `model.GetLowestMemoryRequirement`: fold the comparison over every
registry entry, finetune figure first, then inference, starting from 0. -/
def GetLowestMemoryRequirement (models : List ModelMemory) : Nat :=
  models.foldl
    (fun lowest m => updateLowest (updateLowest lowest m.finetune) m.inference) 0

/-- Every requirement figure the registry reports, in loop order. -/
def allMemoryRequirements (models : List ModelMemory) : List Nat :=
  models.flatMap (fun m => [m.finetune, m.inference])

/-- Modelled from the spec: the `next_task_url` pop endpoint ("returns the
`next` session's Runner Task, sets `current` ← that session, clears
`next`").  The HTTP handler is not part of the source extract; the
assignment itself is the source's `assignSessionTask`. -/
def popNextTask (st : InstanceState) (now : Int)
    (getTask : Session → Except String RunnerTask) :
    InstanceState × Option (Except String RunnerTask) :=
  match st.nextSession with
  | none => (st, none)
  | some s =>
      let res := assignSessionTask { st with nextSession := none } now s getTask
      (res.1, some res.2)

/-- The slot-distinctness invariant, per session ID (a session's identity
is its unique ID): `current` and `next` never hold sessions with the same
ID, and `queued` never holds a session with the same ID as `next`. -/
def slotInvariant (st : InstanceState) : Prop :=
  (st.currentSession.map Session.ID = none ∨
   ¬ st.currentSession.map Session.ID = st.nextSession.map Session.ID) ∧
  (st.queuedSession.map Session.ID = none ∨
   ¬ st.queuedSession.map Session.ID = st.nextSession.map Session.ID)

instance (st : InstanceState) : Decidable (slotInvariant st) :=
  inferInstanceAs (Decidable
    ((st.currentSession.map Session.ID = none ∨
      ¬ st.currentSession.map Session.ID = st.nextSession.map Session.ID) ∧
     (st.queuedSession.map Session.ID = none ∨
      ¬ st.queuedSession.map Session.ID = st.nextSession.map Session.ID)))

/-- One observable mutation of the instance state: the two halves of
`queueSession` (start of prepare, completion of the download), the
spec-modelled next-task pop, and `taskResponseHandler`.  The side condition
on `queueFinish` is the environment guard that a successfully prepared
session's ID differs from the currently running session's ID. -/
inductive InstanceStep : InstanceState → InstanceState → Prop where
  | queueStart (st : InstanceState) (session : Session) :
      InstanceStep st (queueSessionStart st session)
  | queueFinish (st : InstanceState) (session : Session)
      (download : Except String Session)
      (hfresh : ∀ prepared, download = .ok prepared →
        ∀ c, st.currentSession = some c → ¬ c.ID = prepared.ID) :
      InstanceStep st (queueSessionFinish st session download).1
  | pop (st : InstanceState) (now : Int)
      (getTask : Session → Except String RunnerTask) :
      InstanceStep st (popNextTask st now getTask).1
  | handle (st : InstanceState) (now : Int)
      (upload : RunnerTaskResponse → Except String RunnerTaskResponse)
      (r : RunnerTaskResponse) :
      InstanceStep st (taskResponseHandler st now upload r).1

/-- Sample fixtures used to instantiate the theorems below on concrete
inputs. -/
def sampleSession : Session :=
  { ID := "s1", Owner := "owner1", Mode := "inference", Typ := "text",
    ModelName := "mistralai/Mistral-7B-Instruct-v0.1", LoraDir := "" }

def sampleState : InstanceState :=
  { currentSession := some sampleSession, lastActivityTimestamp := 1 }

def sampleGetTask : Session → Except String RunnerTask :=
  fun s => .ok { Prompt := "hello", SessionID := s.ID }

def sampleUpload : RunnerTaskResponse → Except String RunnerTaskResponse :=
  fun r => .ok r

def sampleUploadFail : RunnerTaskResponse → Except String RunnerTaskResponse :=
  fun _ => .error "dial tcp: connection refused"

def sampleStream : RunnerTaskResponse :=
  { typ := .stream, SessionID := "s1", Message := "tok" }

def sampleResult : RunnerTaskResponse :=
  { typ := .result, SessionID := "s1", Message := "full answer", Done := true }

def sampleModels : List ModelMemory :=
  [{ finetune := 8, inference := 4 }, { finetune := 0, inference := 6 }]

def sampleStderr : String := "CUDA error: out of memory"

/-- C1 (counterexample): a session-preparation failure emits its single
`result` envelope through `errorSession`, but that envelope's `Done` flag
is `false` — the Go composite literal in `errorSession` never sets `Done`
— refuting the claim that the terminal error envelope carries
`done = true`. -/
theorem C1_counterexample :
    (queueSession (initialInstanceState {}) sampleSession (.error "boom")).2 =
      [errorSession sampleSession "boom"] ∧
    (errorSession sampleSession "boom").Done = false :=
  ⟨rfl, rfl⟩

/-- C1 (amended): every per-session error path emits exactly one response,
of type `result`, carrying the error message verbatim (hence non-empty
when the message is), with `Done` left at its zero value `false`; and
afterwards, provided the erroring session was not the current one, no
response carrying its session ID is forwarded by `taskResponseHandler`. -/
theorem C1_amended_error_envelope (st : InstanceState) (session : Session)
    (e : String)
    (hcur : ∀ c, st.currentSession = some c → c.ID ≠ session.ID)
    (he : e ≠ "") :
    (queueSession st session (.error e)).2 = [errorSession session e] ∧
    (errorSession session e).typ = .result ∧
    (errorSession session e).Error = e ∧
    (errorSession session e).Error ≠ "" ∧
    (errorSession session e).Done = false ∧
    (∀ now upload r, r.SessionID = session.ID →
      ((taskResponseHandler (queueSession st session (.error e)).1
          now upload r).2).isDropped = true) := by
  refine ⟨rfl, rfl, rfl, he, rfl, ?_⟩
  intro now upload r hr
  unfold queueSession queueSessionFinish queueSessionStart taskResponseHandler
  cases hc : st.currentSession with
  | none => simp [hc, HandlerOutcome.isDropped]
  | some c =>
      have hne : c.ID ≠ r.SessionID := by
        rw [hr]; exact hcur c hc
      simp [hc, hne, HandlerOutcome.isDropped]

/-- C1 (amended) instantiated: a failed download for `sampleSession` on a
fresh instance yields exactly one dropped-afterwards error envelope with
`Done = false`. -/
theorem C1_amended_witness :
    (queueSession (initialInstanceState {}) sampleSession (.error "boom")).2 =
      [errorSession sampleSession "boom"] ∧
    (errorSession sampleSession "boom").typ = .result ∧
    (errorSession sampleSession "boom").Error = "boom" ∧
    (errorSession sampleSession "boom").Error ≠ "" ∧
    (errorSession sampleSession "boom").Done = false ∧
    (∀ now upload r, r.SessionID = sampleSession.ID →
      ((taskResponseHandler
          (queueSession (initialInstanceState {}) sampleSession (.error "boom")).1
          now upload r).2).isDropped = true) :=
  C1_amended_error_envelope (initialInstanceState {}) sampleSession "boom"
    (fun c h => by simp [initialInstanceState] at h) (by decide)

/-- Characterization of `taskResponseHandler` on a mismatching response:
it is dropped and the state is untouched. -/
lemma taskResponseHandler_mismatch {st : InstanceState} {now : Int}
    {upload : RunnerTaskResponse → Except String RunnerTaskResponse}
    {r : RunnerTaskResponse} {c : Session}
    (hc : st.currentSession = some c) (hne : ¬ c.ID = r.SessionID) :
    taskResponseHandler st now upload r = (st, .droppedMismatch) := by
  unfold taskResponseHandler
  simp [hc, hne]

/-- Characterization of `taskResponseHandler` on an accepted non-`result`
response: the owner-tagged response is forwarded and only the activity
timestamp changes. -/
lemma taskResponseHandler_accepted_other {st : InstanceState} {now : Int}
    {upload : RunnerTaskResponse → Except String RunnerTaskResponse}
    {r : RunnerTaskResponse} {c : Session}
    (hc : st.currentSession = some c) (hid : c.ID = r.SessionID)
    (ht : ¬ r.typ = WorkerTaskResponseType.result) :
    taskResponseHandler st now upload r =
      ({ st with lastActivityTimestamp := now },
       HandlerOutcome.forwarded { r with Owner := c.Owner }) := by
  unfold taskResponseHandler
  simp [hc, hid, ht]

/-- Characterization of `taskResponseHandler` on an accepted `result`
response whose upload succeeds: the upload's output is forwarded and the
current session is cleared. -/
lemma taskResponseHandler_accepted_result_ok {st : InstanceState} {now : Int}
    {upload : RunnerTaskResponse → Except String RunnerTaskResponse}
    {r r2 : RunnerTaskResponse} {c : Session}
    (hc : st.currentSession = some c) (hid : c.ID = r.SessionID)
    (ht : r.typ = WorkerTaskResponseType.result)
    (hu : upload { r with Owner := c.Owner } = .ok r2) :
    taskResponseHandler st now upload r =
      ({ st with lastActivityTimestamp := now, currentSession := none },
       HandlerOutcome.forwarded r2) := by
  unfold taskResponseHandler
  rw [ht] at hu
  simp [hc, hid, ht, hu]

/-- Characterization of `taskResponseHandler` on an accepted `result`
response whose upload fails: nothing is forwarded and the current session
is cleared. -/
lemma taskResponseHandler_accepted_result_err {st : InstanceState} {now : Int}
    {upload : RunnerTaskResponse → Except String RunnerTaskResponse}
    {r : RunnerTaskResponse} {c : Session} {e : String}
    (hc : st.currentSession = some c) (hid : c.ID = r.SessionID)
    (ht : r.typ = WorkerTaskResponseType.result)
    (hu : upload { r with Owner := c.Owner } = .error e) :
    taskResponseHandler st now upload r =
      ({ st with lastActivityTimestamp := now, currentSession := none },
       HandlerOutcome.droppedUploadFailed) := by
  unfold taskResponseHandler
  rw [ht] at hu
  simp [hc, hid, ht, hu]

/-- C2: `taskResponseHandler` drops a response when there is no current
session or its session ID differs from the current session's, and any
response it does forward carries the current session's ID and owner
(assuming the external upload step preserves those two fields). -/
theorem C2_stream_demux_routing (st : InstanceState) (now : Int)
    (upload : RunnerTaskResponse → Except String RunnerTaskResponse)
    (r : RunnerTaskResponse)
    (hup : ∀ a b, upload a = .ok b →
      b.SessionID = a.SessionID ∧ b.Owner = a.Owner) :
    (st.currentSession = none →
      taskResponseHandler st now upload r = (st, .droppedNoSession)) ∧
    (∀ c, st.currentSession = some c → c.ID ≠ r.SessionID →
      taskResponseHandler st now upload r = (st, .droppedMismatch)) ∧
    (∀ c r2, st.currentSession = some c →
      (taskResponseHandler st now upload r).2 = .forwarded r2 →
      r2.SessionID = c.ID ∧ r2.Owner = c.Owner) := by
  refine ⟨?_, ?_, ?_⟩
  · intro h
    unfold taskResponseHandler
    rw [h]
  · intro c hc hne
    exact taskResponseHandler_mismatch hc hne
  · intro c r2 hc hf
    by_cases hne : c.ID = r.SessionID
    · by_cases ht : r.typ = WorkerTaskResponseType.result
      · cases hu : upload { r with Owner := c.Owner } with
        | error e =>
            rw [taskResponseHandler_accepted_result_err hc hne ht hu] at hf
            exact absurd hf (by simp)
        | ok rr =>
            rw [taskResponseHandler_accepted_result_ok hc hne ht hu] at hf
            have h3 : rr = r2 := by simpa using hf
            subst h3
            obtain ⟨h1, h2⟩ := hup _ _ hu
            refine ⟨?_, ?_⟩
            · have hs : rr.SessionID = r.SessionID := by simpa using h1
              exact hs.trans hne.symm
            · simpa using h2
      · rw [taskResponseHandler_accepted_other hc hne ht] at hf
        have h3 : { r with Owner := c.Owner } = r2 := by simpa using hf
        subst h3
        exact ⟨by simpa using hne.symm, rfl⟩
    · rw [taskResponseHandler_mismatch hc hne] at hf
      exact absurd hf (by simp)

/-- C2 instantiated: a stream response with a foreign session ID is
dropped with a mismatch outcome. -/
theorem C2_witness :
    taskResponseHandler sampleState 5 sampleUpload
      { typ := .stream, SessionID := "other" } = (sampleState, .droppedMismatch) :=
  (C2_stream_demux_routing sampleState 5 sampleUpload
      { typ := .stream, SessionID := "other" }
      (fun a b h => by simp [sampleUpload] at h; simp [h])).2.1
    sampleSession rfl (by decide)

/-- C3: `queueSession` first stores the session as `queued` with `next`
cleared; on download success the prepared session is promoted to `next`
and `queued` is cleared with nothing emitted; on failure both slots are
cleared and one error task response for that session is emitted. -/
theorem C3_queueSession_pipeline (st : InstanceState) (session : Session)
    (download : Except String Session) :
    ((queueSessionStart st session).queuedSession = some session ∧
     (queueSessionStart st session).nextSession = none) ∧
    (∀ prepared, download = .ok prepared →
      (queueSession st session download).1.nextSession = some prepared ∧
      (queueSession st session download).1.queuedSession = none ∧
      (queueSession st session download).2 = []) ∧
    (∀ e, download = .error e →
      (queueSession st session download).1.nextSession = none ∧
      (queueSession st session download).1.queuedSession = none ∧
      (queueSession st session download).2 = [errorSession session e] ∧
      (errorSession session e).SessionID = session.ID) := by
  refine ⟨⟨rfl, rfl⟩, ?_, ?_⟩
  · rintro prepared rfl
    exact ⟨rfl, rfl, rfl⟩
  · rintro e rfl
    exact ⟨rfl, rfl, rfl, rfl⟩

/-- C3 instantiated: a successful download on a fresh instance promotes
the prepared session to `next` and clears `queued`. -/
theorem C3_witness :
    (queueSession (initialInstanceState {}) sampleSession
        (.ok sampleSession)).1.nextSession = some sampleSession ∧
    (queueSession (initialInstanceState {}) sampleSession
        (.ok sampleSession)).1.queuedSession = none ∧
    (queueSession (initialInstanceState {}) sampleSession
        (.ok sampleSession)).2 = [] :=
  (C3_queueSession_pipeline (initialInstanceState {}) sampleSession
      (.ok sampleSession)).2.1 sampleSession rfl

/-- C4: for a `result` response matching the current session the handler
clears `currentSession`, and anything it forwards is exactly the output of
the file upload — the upload happens before (and gates) the forward. -/
theorem C4_result_upload_before_forward (st : InstanceState) (now : Int)
    (upload : RunnerTaskResponse → Except String RunnerTaskResponse)
    (r : RunnerTaskResponse) (c : Session)
    (hc : st.currentSession = some c) (hid : c.ID = r.SessionID)
    (ht : r.typ = WorkerTaskResponseType.result) :
    (taskResponseHandler st now upload r).1.currentSession = none ∧
    (∀ r2, (taskResponseHandler st now upload r).2 = .forwarded r2 →
      upload { r with Owner := c.Owner } = .ok r2) := by
  cases hu : upload { r with Owner := c.Owner } with
  | error e =>
      rw [taskResponseHandler_accepted_result_err hc hid ht hu]
      simp
  | ok rr =>
      rw [taskResponseHandler_accepted_result_ok hc hid ht hu]
      refine ⟨rfl, ?_⟩
      intro r2 h3
      have h4 : rr = r2 := by simpa using h3
      rw [← h4]

/-- C4 instantiated: handling `sampleResult` (a `result` for the current
session) clears `currentSession`. -/
theorem C4_witness :
    (taskResponseHandler sampleState 5 sampleUpload sampleResult).1.currentSession
      = none :=
  (C4_result_upload_before_forward sampleState 5 sampleUpload sampleResult
      sampleSession rfl rfl rfl).1

/-- Both branches of `assignSessionTask` return the same post-state: only
the activity timestamp and the current session change. -/
lemma assignSessionTask_fst (st : InstanceState) (now : Int) (session : Session)
    (getTask : Session → Except String RunnerTask) :
    (assignSessionTask st now session getTask).1 =
      { st with lastActivityTimestamp := now, currentSession := some session } := by
  unfold assignSessionTask
  cases getTask session <;> rfl

/-- Operation `queueSessionStart` re-establishes the slot invariant outright: it
clears `next`, so neither `current` nor the new `queued` can alias it. -/
lemma slotInvariant_queueSessionStart (st : InstanceState) (session : Session) :
    slotInvariant (queueSessionStart st session) := by
  unfold slotInvariant queueSessionStart
  refine ⟨?_, Or.inr (by simp)⟩
  cases st.currentSession <;> simp

/-- Operation `queueSessionFinish` preserves the slot invariant provided a
successfully prepared session's ID differs from the ID of the session
currently running. -/
lemma slotInvariant_queueSessionFinish (st : InstanceState) (session : Session)
    (download : Except String Session)
    (hfresh : ∀ prepared, download = .ok prepared →
      ∀ c, st.currentSession = some c → ¬ c.ID = prepared.ID) :
    slotInvariant (queueSessionFinish st session download).1 := by
  cases download with
  | error e =>
      unfold slotInvariant queueSessionFinish
      refine ⟨?_, Or.inl (by simp)⟩
      cases st.currentSession <;> simp
  | ok prepared =>
      unfold slotInvariant queueSessionFinish
      refine ⟨?_, Or.inl (by simp)⟩
      cases hc : st.currentSession with
      | none => exact Or.inl (by simp)
      | some c =>
          refine Or.inr ?_
          have h := hfresh prepared rfl c hc
          simpa using h

/-- The spec-modelled next-task pop preserves the slot invariant: it
clears `next` before assigning `current`. -/
lemma slotInvariant_popNextTask (st : InstanceState) (now : Int)
    (getTask : Session → Except String RunnerTask)
    (h : slotInvariant st) :
    slotInvariant (popNextTask st now getTask).1 := by
  unfold popNextTask
  cases hn : st.nextSession with
  | none => exact h
  | some s =>
      simp only [assignSessionTask_fst]
      unfold slotInvariant
      refine ⟨Or.inr (by simp), ?_⟩
      cases hq : st.queuedSession with
      | none => exact Or.inl (by simp)
      | some q => exact Or.inr (by simp)

/-- Operation `taskResponseHandler` preserves the slot invariant: it only ever
clears `current` or refreshes the activity timestamp. -/
lemma slotInvariant_taskResponseHandler (st : InstanceState) (now : Int)
    (upload : RunnerTaskResponse → Except String RunnerTaskResponse)
    (r : RunnerTaskResponse)
    (h : slotInvariant st) :
    slotInvariant (taskResponseHandler st now upload r).1 := by
  cases hc : st.currentSession with
  | none =>
      have hdone : taskResponseHandler st now upload r = (st, .droppedNoSession) := by
        unfold taskResponseHandler
        rw [hc]
      rw [hdone]
      exact h
  | some c =>
      by_cases hne : c.ID = r.SessionID
      · by_cases ht : r.typ = WorkerTaskResponseType.result
        · cases hu : upload { r with Owner := c.Owner } with
          | error e =>
              rw [taskResponseHandler_accepted_result_err hc hne ht hu]
              unfold slotInvariant at h ⊢
              exact ⟨Or.inl (by simp), by simpa using h.2⟩
          | ok rr =>
              rw [taskResponseHandler_accepted_result_ok hc hne ht hu]
              unfold slotInvariant at h ⊢
              exact ⟨Or.inl (by simp), by simpa using h.2⟩
        · rw [taskResponseHandler_accepted_other hc hne ht]
          unfold slotInvariant at h ⊢
          exact ⟨by simpa using h.1, by simpa using h.2⟩
      · rw [taskResponseHandler_mismatch hc hne]
        exact h

/-- C5 (counterexample): from the reachable state in which `sampleSession`
has just been promoted to `next` (a fresh instance queued and prepared
it), calling the source's `assignSessionTask` with that same session —
which is exactly what the next-task pop does, except that the pop handler,
not `assignSessionTask` itself, clears `next` — leaves `current` and
`next` both holding `sampleSession`: `assignSessionTask` does not preserve
the claimed invariant on its own. -/
theorem C5_counterexample :
    decide (slotInvariant
      (queueSession (initialInstanceState {}) sampleSession
        (.ok sampleSession)).1) = true ∧
    decide (slotInvariant
      (assignSessionTask
        (queueSession (initialInstanceState {}) sampleSession
          (.ok sampleSession)).1
        2 sampleSession sampleGetTask).1) = false := by
  exact ⟨by decide, by decide⟩

/-- C5 (amended): in the transition system whose moves are the two halves
of `queueSession`, the spec-modelled next-task pop (which clears `next`
before calling `assignSessionTask`), and `taskResponseHandler`, and in
which every successful download delivers a session whose ID differs from
the currently running session's ID, every state reachable from a fresh
instance satisfies the slot invariant: `current` and `next` never hold
sessions with the same ID and `queued` never holds a session with the same
ID as `next`. -/
theorem C5_amended_slot_invariant (f : SessionFilter) (st : InstanceState)
    (h : Relation.ReflTransGen InstanceStep (initialInstanceState f) st) :
    slotInvariant st := by
  induction h with
  | refl =>
      unfold slotInvariant initialInstanceState
      exact ⟨Or.inl rfl, Or.inl rfl⟩
  | tail hsteps hstep ih =>
      cases hstep with
      | queueStart session =>
          exact slotInvariant_queueSessionStart _ session
      | queueFinish session download hfresh =>
          exact slotInvariant_queueSessionFinish _ session download hfresh
      | pop now getTask =>
          exact slotInvariant_popNextTask _ now getTask ih
      | handle now upload r =>
          exact slotInvariant_taskResponseHandler _ now upload r ih

/-- C5 (amended) instantiated: the state reached by queueing and
successfully preparing `sampleSession` on a fresh instance satisfies the
slot invariant. -/
theorem C5_amended_witness :
    slotInvariant
      (queueSessionFinish (queueSessionStart (initialInstanceState {}) sampleSession)
        sampleSession (.ok sampleSession)).1 :=
  C5_amended_slot_invariant {} _
    (Relation.ReflTransGen.tail
      (Relation.ReflTransGen.tail Relation.ReflTransGen.refl
        (InstanceStep.queueStart (initialInstanceState {}) sampleSession))
      (InstanceStep.queueFinish
        (queueSessionStart (initialInstanceState {}) sampleSession)
        sampleSession (.ok sampleSession)
        (fun prepared hp c hcon => by
          simp [queueSessionStart, initialInstanceState] at hcon)))

/-- C6: at the failing input — the child exits non-zero (`cmd.Wait()`
reports "exit status 1") while `sampleSession` is current and the bounded
stderr buffer retains `sampleStderr` — the instance emits exactly one
error response for that session and signals `finishChan`, but the
response's `Error` field is exactly the `Wait` error string: the retained
stderr is not contained in it, and `Done` is `false`, both contrary to the
claim. -/
theorem C6_child_exit_error_envelope :
    processExit (some sampleSession) (some "exit status 1") =
      ([errorSession sampleSession "exit status 1"], true) ∧
    (errorSession sampleSession "exit status 1").Error = "exit status 1" ∧
    decide ((limitedBuffer (1024 * 10) sampleStderr).data <:+:
      (errorSession sampleSession "exit status 1").Error.data) = false ∧
    (errorSession sampleSession "exit status 1").Done = false := by
  exact ⟨rfl, rfl, by decide, rfl⟩

/-- C7: `NewModelInstance` copies the initial session's model name, mode
and type into the instance filter verbatim; an empty `lora_dir` is hoisted
to `LORA_DIR_NONE` while a non-empty one is preserved bit-for-bit, so the
stored filter's `lora_dir` is never the "don't care" empty string. -/
theorem C7_filter_construction (s : Session) :
    (newModelInstanceFilter s).ModelName = s.ModelName ∧
    (newModelInstanceFilter s).Mode = s.Mode ∧
    (newModelInstanceFilter s).Typ = s.Typ ∧
    (newModelInstanceFilter s).LoraDir =
      (if s.LoraDir = "" then LORA_DIR_NONE else s.LoraDir) ∧
    ((newModelInstanceFilter s).LoraDir == "") = false := by
  refine ⟨rfl, rfl, rfl, rfl, ?_⟩
  by_cases h : s.LoraDir = ""
  · simp [newModelInstanceFilter, h, LORA_DIR_NONE]
  · simp [newModelInstanceFilter, h]

/-- The value `updateLowest a v` is zero exactly when both inputs are. -/
lemma updateLowest_eq_zero (a v : Nat) :
    updateLowest a v = 0 ↔ a = 0 ∧ v = 0 := by
  unfold updateLowest
  split <;> omega

/-- Step `updateLowest` returns one of its two inputs. -/
lemma updateLowest_eq_or (a v : Nat) :
    updateLowest a v = a ∨ updateLowest a v = v := by
  unfold updateLowest
  split
  · exact Or.inr rfl
  · exact Or.inl rfl

/-- Step `updateLowest` never goes above a positive accumulator. -/
lemma updateLowest_le_left (a v : Nat) (h : 0 < a) : updateLowest a v ≤ a := by
  unfold updateLowest
  split <;> omega

/-- Step `updateLowest` never goes above a positive candidate. -/
lemma updateLowest_le_right (a v : Nat) (h : 0 < v) : updateLowest a v ≤ v := by
  unfold updateLowest
  split <;> omega

/-- Loop invariant of the `GetLowestMemoryRequirement` fold: the result is
zero only if everything seen was zero, is one of the values seen, and is a
lower bound on every positive value seen. -/
lemma foldl_updateLowest_props (l : List Nat) (a : Nat) :
    (List.foldl updateLowest a l = 0 → a = 0 ∧ ∀ v ∈ l, v = 0) ∧
    (List.foldl updateLowest a l ≠ 0 →
      List.foldl updateLowest a l = a ∨ List.foldl updateLowest a l ∈ l) ∧
    (∀ v ∈ l, 0 < v → List.foldl updateLowest a l ≤ v) ∧
    (0 < a → List.foldl updateLowest a l ≤ a) := by
  induction l generalizing a with
  | nil =>
      refine ⟨fun h => ⟨h, by simp⟩, fun h => Or.inl rfl, by simp, fun h => le_refl a⟩
  | cons v l ih =>
      obtain ⟨ih1, ih2, ih3, ih4⟩ := ih (updateLowest a v)
      simp only [List.foldl_cons]
      refine ⟨?_, ?_, ?_, ?_⟩
      · intro h0
        obtain ⟨hu, hl⟩ := ih1 h0
        obtain ⟨ha, hv⟩ := (updateLowest_eq_zero a v).1 hu
        refine ⟨ha, ?_⟩
        intro w hw
        rcases List.mem_cons.1 hw with h | h
        · rw [h]; exact hv
        · exact hl w h
      · intro h0
        rcases ih2 h0 with h | h
        · rcases updateLowest_eq_or a v with h2 | h2
          · exact Or.inl (h.trans h2)
          · exact Or.inr (List.mem_cons.2 (Or.inl (h.trans h2)))
        · exact Or.inr (List.mem_cons.2 (Or.inr h))
      · intro w hw hwpos
        rcases List.mem_cons.1 hw with h | h
        · subst h
          have hnz : updateLowest a w ≠ 0 := by
            intro hz
            obtain ⟨h1, h2⟩ := (updateLowest_eq_zero a w).1 hz
            omega
          exact (ih4 (Nat.pos_of_ne_zero hnz)).trans
            (updateLowest_le_right a w hwpos)
        · exact ih3 w h hwpos
      · intro ha
        have hnz : updateLowest a v ≠ 0 := by
          intro hz
          obtain ⟨h1, h2⟩ := (updateLowest_eq_zero a v).1 hz
          omega
        exact (ih4 (Nat.pos_of_ne_zero hnz)).trans (updateLowest_le_left a v ha)

/-- The per-model two-step fold of `GetLowestMemoryRequirement` equals the
flat fold of `updateLowest` over all requirement figures in loop order. -/
lemma foldl_pair_eq_flat (models : List ModelMemory) (a : Nat) :
    models.foldl
      (fun lowest m => updateLowest (updateLowest lowest m.finetune) m.inference) a
      = List.foldl updateLowest a
          (models.flatMap fun m => [m.finetune, m.inference]) := by
  induction models generalizing a with
  | nil => rfl
  | cons m ms ih =>
      simp only [List.foldl_cons, List.flatMap_cons, List.foldl_append,
        List.cons_append, List.nil_append]
      exact ih _

/-- C8: `GetLowestMemoryRequirement` is a lower bound on every strictly
positive requirement any known model reports (in either mode), is itself
one of the reported figures whenever it is non-zero, and is zero only if
no model reports a positive requirement. -/
theorem C8_lowest_memory_requirement (models : List ModelMemory) :
    (∀ v ∈ allMemoryRequirements models, 0 < v →
      GetLowestMemoryRequirement models ≤ v) ∧
    (GetLowestMemoryRequirement models ≠ 0 →
      GetLowestMemoryRequirement models ∈ allMemoryRequirements models) ∧
    (GetLowestMemoryRequirement models = 0 →
      ∀ v ∈ allMemoryRequirements models, v = 0) := by
  have heq : GetLowestMemoryRequirement models
      = List.foldl updateLowest 0 (allMemoryRequirements models) := by
    unfold GetLowestMemoryRequirement allMemoryRequirements
    exact foldl_pair_eq_flat models 0
  obtain ⟨h1, h2, h3, h4⟩ := foldl_updateLowest_props (allMemoryRequirements models) 0
  refine ⟨?_, ?_, ?_⟩
  · intro v hv hpos
    rw [heq]
    exact h3 v hv hpos
  · intro hnz
    rw [heq] at hnz ⊢
    rcases h2 hnz with h | h
    · exact absurd h hnz
    · exact h
  · intro h0
    rw [heq] at h0
    exact (h1 h0).2

/-- C8 instantiated: on the sample registry the result (4) bounds the
positive figure 8 and is one of the reported figures. -/
theorem C8_witness :
    GetLowestMemoryRequirement sampleModels ≤ 8 ∧
    GetLowestMemoryRequirement sampleModels ∈ allMemoryRequirements sampleModels :=
  ⟨(C8_lowest_memory_requirement sampleModels).1 8 (by decide) (by decide),
   (C8_lowest_memory_requirement sampleModels).2.1 (by decide)⟩

/-- C9: when the output-file upload of a matching `result` response fails,
`taskResponseHandler` clears the current session and returns without
forwarding anything — neither the result nor an error envelope reaches the
response handler from this path. -/
theorem C9_upload_failure_drops_result (st : InstanceState) (now : Int)
    (upload : RunnerTaskResponse → Except String RunnerTaskResponse)
    (r : RunnerTaskResponse) (c : Session) (e : String)
    (hc : st.currentSession = some c) (hid : c.ID = r.SessionID)
    (ht : r.typ = WorkerTaskResponseType.result)
    (hu : upload { r with Owner := c.Owner } = .error e) :
    taskResponseHandler st now upload r =
      ({ st with lastActivityTimestamp := now, currentSession := none },
       .droppedUploadFailed) :=
  taskResponseHandler_accepted_result_err hc hid ht hu

/-- C9 instantiated: a failing upload on `sampleResult` clears the current
session with nothing forwarded. -/
theorem C9_witness :
    taskResponseHandler sampleState 5 sampleUploadFail sampleResult =
      ({ sampleState with lastActivityTimestamp := 5, currentSession := none },
       .droppedUploadFailed) :=
  C9_upload_failure_drops_result sampleState 5 sampleUploadFail sampleResult
    sampleSession "dial tcp: connection refused" rfl rfl rfl rfl

/-- C10: `assignSessionTask` rewrites exactly the activity timestamp and
the current session; `taskResponseHandler` on an accepted response sets
the activity timestamp to now and leaves `next`, `queued` and the filter
untouched, with `current` either unchanged or cleared (on a `result`). -/
theorem C10_frame_activity_timestamp (st : InstanceState) (now : Int)
    (session : Session)
    (getTask : Session → Except String RunnerTask)
    (upload : RunnerTaskResponse → Except String RunnerTaskResponse)
    (r : RunnerTaskResponse) (c : Session)
    (hc : st.currentSession = some c) (hid : c.ID = r.SessionID) :
    ((assignSessionTask st now session getTask).1 =
      { st with lastActivityTimestamp := now, currentSession := some session }) ∧
    ((taskResponseHandler st now upload r).1.lastActivityTimestamp = now ∧
     (taskResponseHandler st now upload r).1.nextSession = st.nextSession ∧
     (taskResponseHandler st now upload r).1.queuedSession = st.queuedSession ∧
     (taskResponseHandler st now upload r).1.filter = st.filter ∧
     ((taskResponseHandler st now upload r).1.currentSession = st.currentSession ∨
      (taskResponseHandler st now upload r).1.currentSession = none)) := by
  refine ⟨assignSessionTask_fst st now session getTask, ?_⟩
  by_cases ht : r.typ = WorkerTaskResponseType.result
  · cases hu : upload { r with Owner := c.Owner } with
    | error e =>
        rw [taskResponseHandler_accepted_result_err hc hid ht hu]
        exact ⟨rfl, rfl, rfl, rfl, Or.inr rfl⟩
    | ok rr =>
        rw [taskResponseHandler_accepted_result_ok hc hid ht hu]
        exact ⟨rfl, rfl, rfl, rfl, Or.inr rfl⟩
  · rw [taskResponseHandler_accepted_other hc hid ht]
    exact ⟨rfl, rfl, rfl, rfl, Or.inl rfl⟩

/-- C10 instantiated: assigning `sampleSession` and accepting a stream
response both stamp the activity timestamp and touch no other slot. -/
theorem C10_witness :
    ((assignSessionTask sampleState 5 sampleSession sampleGetTask).1 =
      { sampleState with lastActivityTimestamp := 5,
                         currentSession := some sampleSession }) ∧
    ((taskResponseHandler sampleState 5 sampleUpload sampleStream).1.lastActivityTimestamp = 5 ∧
     (taskResponseHandler sampleState 5 sampleUpload sampleStream).1.nextSession = sampleState.nextSession ∧
     (taskResponseHandler sampleState 5 sampleUpload sampleStream).1.queuedSession = sampleState.queuedSession ∧
     (taskResponseHandler sampleState 5 sampleUpload sampleStream).1.filter = sampleState.filter ∧
     ((taskResponseHandler sampleState 5 sampleUpload sampleStream).1.currentSession = sampleState.currentSession ∨
      (taskResponseHandler sampleState 5 sampleUpload sampleStream).1.currentSession = none)) :=
  C10_frame_activity_timestamp sampleState 5 sampleSession sampleGetTask
    sampleUpload sampleStream sampleSession rfl rfl
